import Mathlib

/-!
Verification development for a Streamlit weather-outfit demo application
(`app.py`): an OAuth 2.0 Authorization Code + PKCE login flow, a weather
lookup tool, and a bounded single-tool agent loop.

The Python source is shallowly embedded: network effects are parameters
(oracles describing the outcome of each outbound HTTP call), Streamlit
session state is an explicit `Session` record, and randomness
(`secrets.token_bytes`) is a parameter.  JSON numeric values that the
code only ever interpolates into strings (temperature, wind speed, ...)
are modelled by their rendered string form; the weather condition code,
which the code uses as a dictionary key, is modelled as an integer.
-/

namespace WeatherApp

/-! ### Session state (app.py lines 20-28)

`st.session_state` holds four fields, initialised to
`authenticated = False` and `None` for the rest. -/

/-- A user-info JSON object returned by the `/userinfo` endpoint,
modelled as an association list of claims. -/
abbrev UserInfo : Type := List (String × String)

/-- The Streamlit session state used by the app (app.py lines 20-28). -/
structure Session where
  authenticated : Bool
  user_info : Option UserInfo
  code_verifier : Option String
  state : Option String
  deriving DecidableEq

/-- The initial session state (app.py lines 20-28): unauthenticated,
with no user info and no pending PKCE verifier or state token. -/
def initSession : Session :=
  { authenticated := false, user_info := none, code_verifier := none, state := none }

/-! ### Logout (app.py lines 286-291)

The logout button handler sets `authenticated = False` and resets
`user_info`, `code_verifier` and `state` to `None`. -/

/-- The logout transition (app.py lines 286-291). -/
def logout (s : Session) : Session :=
  { s with authenticated := false, user_info := none,
           code_verifier := none, state := none }

/-! ### OAuth callback (app.py lines 205-241)

`show_login` inspects the query parameters; when both `code` and `state`
are present it runs the callback branch: state check, token exchange
(`exchange_code_for_token`, lines 64-83), then user-info fetch
(`get_user_info`, lines 85-96).  The two outbound HTTP calls are
modelled by an oracle giving each call's outcome; `Except.error`
covers a raised `requests` exception (network error, timeout, non-2xx
via `raise_for_status`, or malformed JSON body). -/

/-- A token-endpoint JSON response body, modelled as an association
list (the code checks `'access_token' in token_data`). -/
abbrev TokenData : Type := List (String × String)

/-- Outcomes of the two outbound calls of the callback flow:
the token-exchange POST and the user-info GET.  `Except.error` is a
raised `requests.exceptions.RequestException`. -/
structure AuthOracle where
  token : Except String TokenData
  userinfo : Except String UserInfo

/-- The query parameters of the incoming request (app.py line 210). -/
structure QueryParams where
  code : Option String
  state : Option String

/-- `exchange_code_for_token` (app.py lines 64-83): issues the
back-channel POST; on a raised exception it shows an error and returns
`None` (modelled as `none`).  The request body uses the session's
stored `code_verifier`; the body`s contents do not affect the returned
value, so they are not modelled further. -/
def exchange_code_for_token (o : AuthOracle) : Option TokenData :=
  match o.token with
  | .error _ => none
  | .ok td => some td

/-- `get_user_info` (app.py lines 85-96): issues the authenticated GET;
on a raised exception it shows an error and returns `None`. -/
def get_user_info (o : AuthOracle) : Option UserInfo :=
  match o.userinfo with
  | .error _ => none
  | .ok ui => some ui

/-- The observable outcome of the callback branch of `show_login`. -/
inductive CallbackResult where
  | noCallback
  | invalidState
  | authFailed
  | userInfoFailed
  | success
  deriving DecidableEq

/-- Result of running the callback handler: the rendered outcome, the
session state afterwards, and how many outbound HTTP calls were made. -/
structure CallbackOut where
  result : CallbackResult
  session : Session
  calls : Nat
  deriving DecidableEq

/-- The OAuth callback branch of `show_login` (app.py lines 210-241).
When `code` and `state` are both present in the query parameters:
verify the state against the session (line 218), exchange the code
(line 224), fetch the user info (line 228), and on success mark the
session authenticated with the returned profile (lines 231-232).
Python truthiness: a `None` or empty-dict token/user-info response is
falsy, so it takes the corresponding failure branch. -/
def showLoginCallback (q : QueryParams) (s : Session) (o : AuthOracle) : CallbackOut :=
  match q.code, q.state with
  | some _code, some qstate =>
    if s.state ≠ some qstate then
      { result := .invalidState, session := s, calls := 0 }
    else
      match exchange_code_for_token o with
      | none => { result := .authFailed, session := s, calls := 1 }
      | some token_data =>
        if token_data ≠ ([] : TokenData) ∧ (List.lookup "access_token" token_data).isSome then
          match get_user_info o with
          | none => { result := .userInfoFailed, session := s, calls := 2 }
          | some user_info =>
            if user_info ≠ ([] : UserInfo) then
              { result := .success,
                session := { s with authenticated := true, user_info := some user_info },
                calls := 2 }
            else
              { result := .userInfoFailed, session := s, calls := 2 }
        else
          { result := .authFailed, session := s, calls := 1 }
  | _, _ => { result := .noCallback, session := s, calls := 0 }

/-! ### Weather lookup tool (app.py lines 99-154)

`get_weather` validates the city string, then makes two chained HTTP
GET calls (geocoding, then forecast) inside one `try` block whose
`except Exception` handler renders any raised exception as an error
string.  Numeric JSON fields that are only interpolated into the output
are modelled as their rendered string form; `weather_code`, used as a
dictionary key, is an integer.  A field the code accesses with `[...]`
is `Option`-valued: `none` raises a `KeyError`, caught by the handler. -/

/-- Python `str.strip` whitespace set (ASCII). -/
def isPyWhitespace (c : Char) : Bool :=
  c = ' ' ∨ c = '\t' ∨ c = '\n' ∨ c = '\r' ∨ c = '\x0b' ∨ c = '\x0c'

/-- Python `str.strip()`: remove leading and trailing whitespace. -/
def pyStrip (s : String) : String :=
  String.mk (((s.data.dropWhile isPyWhitespace).reverse.dropWhile isPyWhitespace).reverse)

/-- One element of the geocoding response's `results` array
(app.py lines 126-130).  `country` is read with `.get(..., '')`,
the others with `[...]` (raising on absence). -/
structure GeoResult where
  latitude : Option String
  longitude : Option String
  name : Option String
  country : Option String

/-- The geocoding response body (app.py line 121): the code checks
`'results' not in geo_data` before indexing, so absence is graceful. -/
structure GeoData where
  results : Option (List GeoResult)

/-- The forecast response's `current` object (app.py lines 137-140);
every field is read with `[...]`. -/
structure WeatherCurrent where
  temperature_2m : Option String
  precipitation : Option String
  weather_code : Option Int
  wind_speed_10m : Option String

/-- The forecast response body (app.py line 135). -/
structure WeatherData where
  current : Option WeatherCurrent

/-- Outcomes of the two outbound calls of `get_weather`:
`Except.error msg` is an exception raised by `requests.get` or by
`.json()` (network error, timeout, malformed body), carrying `str(e)`. -/
structure WeatherOracle where
  geo : Except String GeoData
  weather : Except String WeatherData

/-- The validation-failure message (app.py line 112). -/
def invalidCityMsg : String :=
  "Invalid city name. Please provide a valid city name with at least 2 characters."

/-- The city-not-found message (app.py line 124). -/
def cityNotFoundMsg (city : String) : String :=
  "City \x27" ++ city ++ "\x27 not found. Please check the spelling or try a different city."

/-- The generic exception-handler message (app.py line 154), around
`str(e)` for the raised exception `e`. -/
def weatherErrMsg (detail : String) : String :=
  "Error fetching weather data: " ++ detail

/-- The rendered form of a Python `KeyError` on the given key, as fed
to the handler's `str(e)`. -/
def keyErrorMsg (key : String) : String := "\x27" ++ key ++ "\x27"

/-- The success message (app.py line 151; the degree sign is mojibake
in the source file itself, reproduced byte-for-byte). -/
def weatherMsg (city_name country temp condition precip wind_speed : String) : String :=
  "Weather in " ++ city_name ++ ", " ++ country ++ ": " ++ temp ++ "\xc2\xb0C, "
    ++ condition ++ ", precipitation: " ++ precip ++ "mm, wind: " ++ wind_speed ++ " km/h"

/-- The fixed weather-condition lookup table (app.py lines 143-148). -/
def conditions : List (Int × String) :=
  [(0, "clear sky"), (1, "mainly clear"), (2, "partly cloudy"), (3, "overcast"),
   (45, "foggy"), (48, "foggy"), (51, "light drizzle"), (53, "drizzle"),
   (55, "heavy drizzle"), (61, "light rain"), (63, "rain"), (65, "heavy rain"),
   (71, "light snow"), (73, "snow"), (75, "heavy snow"), (95, "thunderstorm")]

/-- `conditions.get(weather_code, "unknown conditions")` (app.py line 149). -/
def conditionLabel (weather_code : Int) : String :=
  (List.lookup weather_code conditions).getD "unknown conditions"

/-- `get_weather` (app.py lines 99-154), returning the rendered string
together with the number of outbound HTTP calls made.  Control flow:
input validation (line 111, no network); geocode call (line 120);
`results` emptiness check (line 123); field reads (lines 127-130);
forecast call (line 134); field reads (lines 137-140); condition
lookup and rendering (lines 149-151).  Any raised exception reaches
the `except Exception` handler (line 153). -/
def get_weather (city : String) (o : WeatherOracle) : String × Nat :=
  if city = "" ∨ (pyStrip city).length < 2 then
    (invalidCityMsg, 0)
  else
    let city := pyStrip city
    match o.geo with
    | .error e => (weatherErrMsg e, 1)
    | .ok geo_data =>
      match geo_data.results with
      | none => (cityNotFoundMsg city, 1)
      | some [] => (cityNotFoundMsg city, 1)
      | some (location :: _) =>
        match location.latitude with
        | none => (weatherErrMsg (keyErrorMsg "latitude"), 1)
        | some _lat =>
          match location.longitude with
          | none => (weatherErrMsg (keyErrorMsg "longitude"), 1)
          | some _lon =>
            match location.name with
            | none => (weatherErrMsg (keyErrorMsg "name"), 1)
            | some city_name =>
              let country := location.country.getD ""
              match o.weather with
              | .error e => (weatherErrMsg e, 2)
              | .ok weather_data =>
                match weather_data.current with
                | none => (weatherErrMsg (keyErrorMsg "current"), 2)
                | some current =>
                  match current.temperature_2m with
                  | none => (weatherErrMsg (keyErrorMsg "temperature_2m"), 2)
                  | some temp =>
                    match current.precipitation with
                    | none => (weatherErrMsg (keyErrorMsg "precipitation"), 2)
                    | some precip =>
                      match current.weather_code with
                      | none => (weatherErrMsg (keyErrorMsg "weather_code"), 2)
                      | some weather_code =>
                        match current.wind_speed_10m with
                        | none => (weatherErrMsg (keyErrorMsg "wind_speed_10m"), 2)
                        | some wind_speed =>
                          (weatherMsg city_name country temp
                            (conditionLabel weather_code) precip wind_speed, 2)

/-- Classification of `get_weather` outputs: at most two outbound
calls are made, and the returned string is one of the renderable
messages — the validation message, the not-found message, the
exception-handler message for some detail, or the success format. -/
def RenderedOutcome (out : String × Nat) : Prop :=
  out.2 ≤ 2 ∧
  (out.1 = invalidCityMsg ∨
   (∃ c, out.1 = cityNotFoundMsg c) ∨
   (∃ d, out.1 = weatherErrMsg d) ∨
   (∃ city_name country temp condition precip wind_speed,
     out.1 = weatherMsg city_name country temp condition precip wind_speed))

/-! ### PKCE helpers (app.py lines 31-38)

`generate_code_verifier` is
`base64.urlsafe_b64encode(secrets.token_bytes(32)).decode('utf-8').rstrip('=')`;
`generate_code_challenge` is the same encoding applied to
`hashlib.sha256(verifier.encode('utf-8')).digest()`.  The random bytes
and the SHA-256 digest function are parameters of the embedding
(`secrets` and `hashlib` are black-box library primitives); the
encoding pipeline — URL-safe base64 with `=` padding followed by
`rstrip('=')` — is embedded in full. -/

/-- The URL-safe base64 alphabet (RFC 4648 §5), as used by Python's
`base64.urlsafe_b64encode`. -/
def b64urlAlphabet : List Char :=
  "ABCDEFGHIJKLMNOPQRSTUVWXYZabcdefghijklmnopqrstuvwxyz0123456789-_".data

/-- The character for a 6-bit group. -/
def b64Char (i : Nat) : Char := b64urlAlphabet.getD i 'A'

/-- Python `base64.urlsafe_b64encode` on a byte list: chunks of three
bytes become four alphabet characters; a trailing chunk of one or two
bytes is padded with `=` to a multiple of four. -/
def b64encode : List Nat → List Char
  | [] => []
  | [a] => [b64Char (a / 4), b64Char (a % 4 * 16), '=', '=']
  | [a, b] => [b64Char (a / 4), b64Char (a % 4 * 16 + b / 16), b64Char (b % 16 * 4), '=']
  | a :: b :: c :: rest =>
    b64Char (a / 4) :: b64Char (a % 4 * 16 + b / 16) ::
      b64Char (b % 16 * 4 + c / 64) :: b64Char (c % 64) :: b64encode rest

/-- Unpadded URL-safe base64: as `b64encode` but emitting no `=`
characters.  This is the encoding the spec describes directly. -/
def b64NoPad : List Nat → List Char
  | [] => []
  | [a] => [b64Char (a / 4), b64Char (a % 4 * 16)]
  | [a, b] => [b64Char (a / 4), b64Char (a % 4 * 16 + b / 16), b64Char (b % 16 * 4)]
  | a :: b :: c :: rest =>
    b64Char (a / 4) :: b64Char (a % 4 * 16 + b / 16) ::
      b64Char (b % 16 * 4 + c / 64) :: b64Char (c % 64) :: b64NoPad rest

/-- Python `str.rstrip('=')`: remove every trailing `=`. -/
def rstripEq : List Char → List Char
  | [] => []
  | c :: cs =>
    match rstripEq cs with
    | [] => if c = '=' then [] else [c]
    | r => c :: r

/-- The UTF-8 bytes of a string (`.encode('utf-8')`). -/
def utf8Bytes (s : String) : List Nat :=
  s.toUTF8.toList.map (fun b => b.toNat)

/-- `generate_code_verifier` (app.py lines 31-33), with the output of
`secrets.token_bytes(32)` as the `randomBytes` parameter. -/
def generate_code_verifier (randomBytes : List Nat) : String :=
  String.mk (rstripEq (b64encode randomBytes))

/-- `generate_code_challenge` (app.py lines 35-38), with the
`hashlib.sha256(...).digest()` primitive as the `sha256` parameter. -/
def generate_code_challenge (sha256 : List Nat → List Nat) (verifier : String) : String :=
  String.mk (rstripEq (b64encode (sha256 (utf8Bytes verifier))))

/-- The spec's wording of the challenge derivation (§4.1): the
URL-safe *unpadded* base64 of SHA-256 of the verifier, built without
any padding step.  Kept separate from `generate_code_challenge` so the
two can be compared. -/
def derive_challenge_spec (sha256 : List Nat → List Nat) (verifier : String) : String :=
  String.mk (b64NoPad (sha256 (utf8Bytes verifier)))

/-! ### Outfit agent loop (app.py lines 157-202)

`create_outfit_agent` wires a langchain `AgentExecutor` with a single
tool and `max_iterations=5` (app.py line 199).  The executor itself is
library code outside this repository. -/

/-- `max_iterations` passed to the executor (app.py line 199). -/
def max_iterations : Nat := 5

/-- One decision of the reasoning engine: either emit a final answer
or invoke the tool with an input. -/
inductive AgentStep where
  | finish (answer : String)
  | act (toolInput : String)

/-- Outcome of an agent run: a final answer, or the could-not-complete
result produced when the iteration cap is exhausted. -/
inductive AgentResult where
  | final (answer : String)
  | stopped
  deriving DecidableEq

/-- Modelled from the spec: the langchain `AgentExecutor` reasoning
loop is not part of this repository's source (only its configuration
is, app.py lines 194-200).  Per spec §4.6, each step the reasoning
engine (the `policy`, deciding on the observations so far) either
invokes the tool — whose output is appended as an observation — or
emits a final answer; the loop is bounded by a maximum iteration
count, and exhausting it terminates with a "could not complete"
result.  Returns the outcome and the number of reasoning steps
executed. -/
def agentLoop (policy : List String → AgentStep) (tool : String → String) :
    List String → Nat → AgentResult × Nat
  | _, 0 => (.stopped, 0)
  | obs, n + 1 =>
    match policy obs with
    | .finish a => (.final a, 1)
    | .act inp =>
      let r := agentLoop policy tool (obs ++ [tool inp]) n
      (r.1, r.2 + 1)

/-- A run of the agent built by `create_outfit_agent`: the loop of
`agentLoop` starting from no observations, capped at `max_iterations`. -/
def runOutfitAgent (policy : List String → AgentStep) (tool : String → String) :
    AgentResult × Nat :=
  agentLoop policy tool [] max_iterations

/-! ### Supporting lemmas -/

/-- Every 6-bit group maps into the URL-safe alphabet (the out-of-range
default `'A'` is itself in the alphabet). -/
theorem b64Char_mem (i : Nat) : b64Char i ∈ b64urlAlphabet := by
  unfold b64Char
  rcases lt_or_le i b64urlAlphabet.length with h | h
  · rw [List.getD_eq_getElem _ _ h]
    exact List.getElem_mem h
  · rw [List.getD_eq_default _ _ h]
    decide

/-- The encoder never emits a padding character from `b64Char`. -/
theorem b64Char_ne_pad (i : Nat) : b64Char i ≠ '=' := by
  have hmem := b64Char_mem i
  have hall : ∀ c ∈ b64urlAlphabet, c ≠ '=' := by decide
  exact hall _ hmem

/-- `rstrip('=')` walks through a non-`=` head character. -/
theorem rstripEq_cons_ne (c : Char) (l : List Char) (h : c ≠ '=') :
    rstripEq (c :: l) = c :: rstripEq l := by
  simp only [rstripEq]
  cases hr : rstripEq l with
  | nil => simp [h]
  | cons x xs => rfl

/-- `rstrip('=')` walks through any alphabet character. -/
theorem rstripEq_cons_b64Char (i : Nat) (l : List Char) :
    rstripEq (b64Char i :: l) = b64Char i :: rstripEq l :=
  rstripEq_cons_ne _ _ (b64Char_ne_pad i)

/-- Refinement of the encoding pipeline: stripping the `=` padding off
Python's padded URL-safe base64 yields exactly the direct unpadded
URL-safe base64 encoding. -/
theorem rstripEq_b64encode (bs : List Nat) :
    rstripEq (b64encode bs) = b64NoPad bs := by
  induction bs using b64encode.induct with
  | case1 => rfl
  | case2 a =>
    have h2 : rstripEq ['=', '='] = [] := by decide
    simp [b64encode, b64NoPad, rstripEq_cons_b64Char, h2]
  | case3 a b =>
    have h1 : rstripEq ['='] = [] := by decide
    simp [b64encode, b64NoPad, rstripEq_cons_b64Char, h1]
  | case4 a b c rest ih =>
    simp [b64encode, b64NoPad, rstripEq_cons_b64Char, ih]

/-- Length of the unpadded encoding: `ceil(4n/3)` characters for `n`
input bytes. -/
theorem b64NoPad_length (bs : List Nat) :
    (b64NoPad bs).length = (4 * bs.length + 2) / 3 := by
  induction bs using b64NoPad.induct with
  | case1 => rfl
  | case2 a => simp [b64NoPad]
  | case3 a b => simp [b64NoPad]
  | case4 a b c rest ih =>
    simp only [b64NoPad, List.length_cons, ih]
    omega

/-- Every character of the unpadded encoding is in the URL-safe
alphabet. -/
theorem b64NoPad_mem (bs : List Nat) (c : Char) (h : c ∈ b64NoPad bs) :
    c ∈ b64urlAlphabet := by
  induction bs using b64NoPad.induct with
  | case1 => simp [b64NoPad] at h
  | case2 a =>
    simp [b64NoPad] at h
    rcases h with h | h <;> (subst h; exact b64Char_mem _)
  | case3 a b =>
    simp [b64NoPad] at h
    rcases h with h | h | h <;> (subst h; exact b64Char_mem _)
  | case4 a b c rest ih =>
    simp [b64NoPad] at h
    rcases h with h | h | h | h | h
    · subst h; exact b64Char_mem _
    · subst h; exact b64Char_mem _
    · subst h; exact b64Char_mem _
    · subst h; exact b64Char_mem _
    · exact ih h

/-- A key absent from an association list's key column looks up to
`none`. -/
theorem lookup_eq_none_of_notMem_keys (l : List (Int × String)) (c : Int)
    (h : c ∉ l.map Prod.fst) : List.lookup c l = none := by
  induction l with
  | nil => rfl
  | cons p t ih =>
    obtain ⟨k, v⟩ := p
    simp only [List.map, List.mem_cons, not_or] at h
    rw [List.lookup_cons]
    have hk : (c == k) = false := by
      simp [h.1]
    simp [hk, ih h.2]

/-- The agent loop never runs more reasoning steps than its fuel. -/
theorem agentLoop_steps_le (policy : List String → AgentStep) (tool : String → String) :
    ∀ (n : Nat) (obs : List String), (agentLoop policy tool obs n).2 ≤ n := by
  intro n
  induction n with
  | zero => intro obs; simp [agentLoop]
  | succ n ih =>
    intro obs
    cases h : policy obs with
    | finish a => simp [agentLoop, h]
    | act inp =>
      simp only [agentLoop, h]
      exact Nat.succ_le_succ (ih _)

/-- A policy that never emits a final answer drives the loop to the
could-not-complete result. -/
theorem agentLoop_stopped (policy : List String → AgentStep) (tool : String → String)
    (hp : ∀ obs, ∃ inp, policy obs = .act inp) :
    ∀ (n : Nat) (obs : List String), (agentLoop policy tool obs n).1 = .stopped := by
  intro n
  induction n with
  | zero => intro obs; rfl
  | succ n ih =>
    intro obs
    obtain ⟨inp, h⟩ := hp obs
    simp only [agentLoop, h]
    exact ih _

/-! ### Claim theorems -/

/-- C1: an authorization callback whose `state` query parameter differs
from the state stored in the session fails with the invalid-state error
and performs zero outbound network calls — the token-exchange POST is
never issued — and leaves the session unchanged. -/
theorem spec_c1_state_mismatch_aborts (code qstate : String) (s : Session) (o : AuthOracle)
    (hne : s.state ≠ some qstate) :
    showLoginCallback ⟨some code, some qstate⟩ s o =
      { result := .invalidState, session := s, calls := 0 } := by
  simp [showLoginCallback, hne]

/-- Witness for C1 at a concrete mismatching callback. -/
theorem spec_c1_state_mismatch_witness :
    showLoginCallback ⟨some "authcode", some "forged"⟩
        { authenticated := false, user_info := none,
          code_verifier := some "vrf", state := some "genuine" }
        { token := .error "unused", userinfo := .error "unused" } =
      { result := .invalidState,
        session := { authenticated := false, user_info := none,
                     code_verifier := some "vrf", state := some "genuine" },
        calls := 0 } :=
  spec_c1_state_mismatch_aborts "authcode" "forged" _ _ (by decide)

/-- C2 counterexample: on a failed token exchange (the back-channel
POST raises), the session's pending verifier and pending state are NOT
cleared — they keep their previous values — refuting the claim that a
failed exchange clears both fields. -/
theorem spec_c2_pending_not_cleared :
    let out := showLoginCallback ⟨some "authcode", some "statetok"⟩
      { authenticated := false, user_info := none,
        code_verifier := some "vrf", state := some "statetok" }
      { token := .error "connection refused", userinfo := .error "unused" }
    out.result = .authFailed ∧ out.session.authenticated = false ∧
      out.session.code_verifier = some "vrf" ∧ out.session.state = some "statetok" := by
  decide

/-- C2 (amended): when the token-exchange POST fails (raised exception:
network error, non-2xx, malformed body) or its body lacks a usable
`access_token`, the callback reports the authentication failure, one
outbound call was made, and the session is left entirely unchanged —
it remains unauthenticated, and the pending verifier and state fields
retain their previous values (they are not cleared). -/
theorem spec_c2_exchange_failure_amended (code qstate : String) (s : Session) (o : AuthOracle)
    (hst : s.state = some qstate)
    (hfail : ∀ td, o.token = .ok td →
      td = ([] : TokenData) ∨ List.lookup "access_token" td = none) :
    showLoginCallback ⟨some code, some qstate⟩ s o =
      { result := .authFailed, session := s, calls := 1 } := by
  cases ho : o.token with
  | error e =>
    simp [showLoginCallback, hst, exchange_code_for_token, ho]
  | ok td =>
    rcases hfail td ho with h | h
    · subst h
      simp [showLoginCallback, hst, exchange_code_for_token, ho]
    · simp [showLoginCallback, hst, exchange_code_for_token, ho, h]

/-- Witness for the amended C2 at a concrete failing exchange. -/
theorem spec_c2_exchange_failure_witness :
    showLoginCallback ⟨some "authcode", some "statetok"⟩
        { authenticated := false, user_info := none,
          code_verifier := some "vrf", state := some "statetok" }
        { token := .error "timeout", userinfo := .error "unused" } =
      { result := .authFailed,
        session := { authenticated := false, user_info := none,
                     code_verifier := some "vrf", state := some "statetok" },
        calls := 1 } :=
  spec_c2_exchange_failure_amended "authcode" "statetok" _ _ rfl
    (fun _td h => Except.noConfusion h)

/-- C3 counterexample: on the fully successful path (token exchange and
profile fetch both succeed), the session becomes authenticated with the
profile, but the pending PKCE verifier and pending state are NOT
cleared — refuting the one-time-use clearing part of the claim. -/
theorem spec_c3_pending_not_cleared :
    let out := showLoginCallback ⟨some "authcode", some "statetok"⟩
      { authenticated := false, user_info := none,
        code_verifier := some "vrf", state := some "statetok" }
      { token := .ok [("access_token", "tok")], userinfo := .ok [("name", "Ada")] }
    out.result = .success ∧ out.session.authenticated = true ∧
      out.session.user_info = some [("name", "Ada")] ∧
      out.session.code_verifier = some "vrf" ∧ out.session.state = some "statetok" := by
  decide

/-- C3 (amended): after a successful token exchange and a successful,
non-empty profile fetch, the session is updated to authenticated with
the returned profile, while the pending PKCE verifier and pending
state fields are left unchanged (they are only reset at logout). -/
theorem spec_c3_success_amended (code qstate : String) (s : Session) (o : AuthOracle)
    (td : TokenData) (ui : UserInfo)
    (hst : s.state = some qstate)
    (htd : o.token = .ok td) (htd0 : td ≠ ([] : TokenData))
    (hak : (List.lookup "access_token" td).isSome)
    (hui : o.userinfo = .ok ui) (hui0 : ui ≠ ([] : UserInfo)) :
    showLoginCallback ⟨some code, some qstate⟩ s o =
      { result := .success,
        session := { authenticated := true, user_info := some ui,
                     code_verifier := s.code_verifier, state := s.state },
        calls := 2 } := by
  obtain ⟨sa, su, sv, ss⟩ := s
  simp only [Session.state] at hst
  subst hst
  simp [showLoginCallback, exchange_code_for_token, get_user_info, htd, htd0, hak, hui, hui0]

/-- Witness for the amended C3 at a concrete successful login. -/
theorem spec_c3_success_witness :
    showLoginCallback ⟨some "authcode", some "statetok"⟩
        { authenticated := false, user_info := none,
          code_verifier := some "vrf", state := some "statetok" }
        { token := .ok [("access_token", "tok")], userinfo := .ok [("name", "Ada")] } =
      { result := .success,
        session := { authenticated := true, user_info := some [("name", "Ada")],
                     code_verifier := some "vrf", state := some "statetok" },
        calls := 2 } :=
  spec_c3_success_amended "authcode" "statetok" _ _ [("access_token", "tok")] [("name", "Ada")]
    rfl rfl (by decide) (by decide) rfl (by decide)

/-- C4: for every verifier string, `generate_code_challenge` returns
exactly the URL-safe, unpadded base64 encoding of the SHA-256 digest of
the verifier's UTF-8 bytes (the digest primitive is a parameter), and
it is deterministic: the same verifier yields the same challenge. -/
theorem spec_c4_challenge_encoding (sha256 : List Nat → List Nat) (v : String) :
    generate_code_challenge sha256 v = derive_challenge_spec sha256 v ∧
    ∀ w, w = v → generate_code_challenge sha256 w = generate_code_challenge sha256 v := by
  constructor
  · unfold generate_code_challenge derive_challenge_spec
    rw [rstripEq_b64encode]
  · intro w hw
    rw [hw]

/-- Witness for C4 at a concrete digest function and verifier. -/
theorem spec_c4_challenge_witness :
    generate_code_challenge (fun bs => bs) "abc" = derive_challenge_spec (fun bs => bs) "abc" ∧
    generate_code_challenge (fun bs => bs) "abc" = generate_code_challenge (fun bs => bs) "abc" :=
  ⟨(spec_c4_challenge_encoding (fun bs => bs) "abc").1,
   (spec_c4_challenge_encoding (fun bs => bs) "abc").2 "abc" rfl⟩

/-- C5: for every 32-byte random input, `generate_code_verifier`
returns that input's unpadded URL-safe base64 encoding — a 43-character
string over the URL-safe alphabet. -/
theorem spec_c5_verifier_encoding (randomBytes : List Nat)
    (h : randomBytes.length = 32) :
    generate_code_verifier randomBytes = String.mk (b64NoPad randomBytes) ∧
    (generate_code_verifier randomBytes).length = 43 ∧
    ∀ c ∈ (generate_code_verifier randomBytes).data, c ∈ b64urlAlphabet := by
  have he : generate_code_verifier randomBytes = String.mk (b64NoPad randomBytes) := by
    unfold generate_code_verifier
    rw [rstripEq_b64encode]
  refine ⟨he, ?_, ?_⟩
  · rw [he]
    show (b64NoPad randomBytes).length = 43
    rw [b64NoPad_length, h]
  · rw [he]
    intro c hc
    exact b64NoPad_mem _ _ hc

/-- Witness for C5 at a concrete 32-byte input. -/
theorem spec_c5_verifier_witness :
    (List.replicate 32 0).length = 32 ∧
    generate_code_verifier (List.replicate 32 0) = String.mk (b64NoPad (List.replicate 32 0)) ∧
    (generate_code_verifier (List.replicate 32 0)).length = 43 :=
  ⟨by decide, (spec_c5_verifier_encoding _ (by decide)).1,
   (spec_c5_verifier_encoding _ (by decide)).2.1⟩

/-- C6: every input whose trimmed form has fewer than 2 characters is
rejected by `get_weather` with the invalid-city message and zero
network calls, whatever the network would have answered. -/
theorem spec_c6_short_city_rejected (city : String) (o : WeatherOracle)
    (h : (pyStrip city).length < 2) :
    get_weather city o = (invalidCityMsg, 0) := by
  unfold get_weather
  rw [if_pos (Or.inr h)]

/-- Witness for C6 at the one-character input and the empty input. -/
theorem spec_c6_short_city_witness :
    get_weather "P" ⟨Except.error "unused", Except.error "unused"⟩ = (invalidCityMsg, 0) ∧
    get_weather "" ⟨Except.error "unused", Except.error "unused"⟩ = (invalidCityMsg, 0) :=
  ⟨spec_c6_short_city_rejected "P" _ (by decide),
   spec_c6_short_city_rejected "" _ (by decide)⟩

/-- C7: the condition-code mapping is the fixed table of app.py lines
143-148, and every code absent from the table (such as 999) maps to
"unknown conditions" as a successful default. -/
theorem spec_c7_condition_table :
    (conditionLabel 0 = "clear sky" ∧ conditionLabel 1 = "mainly clear" ∧
     conditionLabel 2 = "partly cloudy" ∧ conditionLabel 3 = "overcast" ∧
     conditionLabel 45 = "foggy" ∧ conditionLabel 48 = "foggy" ∧
     conditionLabel 51 = "light drizzle" ∧ conditionLabel 53 = "drizzle" ∧
     conditionLabel 55 = "heavy drizzle" ∧ conditionLabel 61 = "light rain" ∧
     conditionLabel 63 = "rain" ∧ conditionLabel 65 = "heavy rain" ∧
     conditionLabel 71 = "light snow" ∧ conditionLabel 73 = "snow" ∧
     conditionLabel 75 = "heavy snow" ∧ conditionLabel 95 = "thunderstorm" ∧
     conditionLabel 999 = "unknown conditions") ∧
    ∀ code : Int, code ∉ conditions.map Prod.fst →
      conditionLabel code = "unknown conditions" := by
  constructor
  · decide
  · intro code hcode
    unfold conditionLabel
    rw [lookup_eq_none_of_notMem_keys _ _ hcode]
    rfl

/-- Witness for C7 at the unmapped code 7. -/
theorem spec_c7_condition_table_witness :
    (7 : Int) ∉ conditions.map Prod.fst ∧ conditionLabel 7 = "unknown conditions" :=
  ⟨by decide, spec_c7_condition_table.2 7 (by decide)⟩

/-- C8: a run of the outfit agent executes at most `max_iterations = 5`
reasoning steps, and a policy that never produces a final answer makes
the run terminate with the could-not-complete result instead of
looping forever. -/
theorem spec_c8_agent_cap (policy : List String → AgentStep) (tool : String → String) :
    (runOutfitAgent policy tool).2 ≤ max_iterations ∧
    ((∀ obs, ∃ inp, policy obs = .act inp) →
      (runOutfitAgent policy tool).1 = .stopped) := by
  constructor
  · exact agentLoop_steps_le policy tool max_iterations []
  · intro hp
    exact agentLoop_stopped policy tool hp max_iterations []

/-- Witness for C8 at a policy that always invokes the tool. -/
theorem spec_c8_agent_cap_witness :
    (runOutfitAgent (fun _ => .act "Tokyo") (fun _ => "sunny")).2 ≤ max_iterations ∧
    (runOutfitAgent (fun _ => .act "Tokyo") (fun _ => "sunny")).1 = .stopped :=
  ⟨(spec_c8_agent_cap (fun _ => .act "Tokyo") (fun _ => "sunny")).1,
   (spec_c8_agent_cap (fun _ => .act "Tokyo") (fun _ => "sunny")).2
     (fun _obs => ⟨"Tokyo", rfl⟩)⟩

/-- C9: for every input and every outcome of the two outbound calls,
`get_weather` returns a rendered string (never an uncaught exception):
at most two calls are made and the result is the validation message,
the not-found message, the exception-handler message, or the success
format. -/
theorem spec_c9_weather_total (city : String) (o : WeatherOracle) :
    RenderedOutcome (get_weather city o) := by
  unfold RenderedOutcome get_weather
  repeat' split
  all_goals refine ⟨by norm_num, ?_⟩
  all_goals first
    | exact Or.inl rfl
    | exact Or.inr (Or.inl ⟨_, rfl⟩)
    | exact Or.inr (Or.inr (Or.inl ⟨_, rfl⟩))
    | exact Or.inr (Or.inr (Or.inr ⟨_, _, _, _, _, _, rfl⟩))

/-- C10: logout restores the session to the initial unauthenticated
state: `authenticated` false and profile, pending verifier and pending
state all `none`, whatever the session held before. -/
theorem spec_c10_logout_resets (s : Session) : logout s = initSession := rfl

end WeatherApp
